import Mathlib

/-!
Shallow embedding of `src/mcp_server.py`, a minimal MCP server exposing two
tools, `search` and `fetch`.  The two tools are pure functions of their string
argument (plus, for `search`, the process's string-hash function, which Python
leaves unspecified per process; we model it as an explicit parameter
`pyHash : String → Int`).  Fallible code (`fetch` raising `ValueError`) is
modelled with `Except`.
-/

namespace MCPServer

/-- Model of Python's whitespace test used by `str.strip()`: a character is
whitespace iff `str.isspace` holds of it (ASCII whitespace, the C1 control
separators, and the Unicode space separators). -/
def pyIsSpace (c : Char) : Bool :=
  c.val = 0x09 || c.val = 0x0a || c.val = 0x0b || c.val = 0x0c || c.val = 0x0d ||
  (0x1c ≤ c.val && c.val ≤ 0x1f) || c.val = 0x20 || c.val = 0x85 || c.val = 0xa0 ||
  c.val = 0x1680 || (0x2000 ≤ c.val && c.val ≤ 0x200a) ||
  c.val = 0x2028 || c.val = 0x2029 || c.val = 0x202f || c.val = 0x205f || c.val = 0x3000

/-- Model of Python's `str.strip()`: drop leading and trailing whitespace. -/
def pyStrip (s : String) : String :=
  ⟨((s.data.dropWhile pyIsSpace).reverse.dropWhile pyIsSpace).reverse⟩

/-- Helper for `pyTitle`: walks the characters tracking whether the previous
character was cased, uppercasing the first letter of each run of letters and
lowercasing the rest, as Python's `str.title()` does (ASCII letters; `Char.toUpper`
and `Char.toLower` are ASCII-only, matching the queries the claims exercise). -/
def pyTitleGo : List Char → Bool → List Char
  | [], _ => []
  | c :: cs, prevCased =>
    if c.isAlpha then
      (if prevCased then c.toLower else c.toUpper) :: pyTitleGo cs true
    else
      c :: pyTitleGo cs false

/-- Model of Python's `str.title()`. -/
def pyTitle (s : String) : String :=
  ⟨pyTitleGo s.data false⟩

/-- One record of the `results` list returned by `search`
(`src/mcp_server.py:56-62`): the dict with keys `id`, `title`, `text`, `url`. -/
structure SearchResult where
  id : String
  title : String
  text : String
  url : String
deriving Repr, DecidableEq

/-- The dictionary `search` returns (`src/mcp_server.py:67-70`): a single key
`results` holding a list of result records. -/
structure SearchResponse where
  results : List SearchResult
deriving Repr, DecidableEq

/-- The dictionary `fetch` returns (`src/mcp_server.py:97-106`): keys `id`,
`title`, `text`, `url`, `metadata` (the metadata dict is a string-to-string
mapping, embedded as an association list). -/
structure FetchResponse where
  id : String
  title : String
  text : String
  url : String
  metadata : List (String × String)
deriving Repr, DecidableEq

/-- Python exceptions raised by the embedded code: `fetch` raises
`ValueError("Document ID is required")` on an empty id (`src/mcp_server.py:93`). -/
inductive PyError where
  | valueError (msg : String)
deriving Repr, DecidableEq

/-- Embedding of the `search` tool (`src/mcp_server.py:34-70`).
`pyHash` stands for Python's built-in `hash` on strings, fixed for the lifetime
of the process.  A query that is empty or blank after stripping returns the
empty results list; otherwise a single mockup record is synthesized from
`hash(query) % 10000` (Python's `%` on a positive modulus is `Int.emod`). -/
def search (pyHash : String → Int) (query : String) : SearchResponse :=
  if query = "" ∨ pyStrip query = "" then
    { results := [] }
  else
    let mockupId : String := "mock@@@" ++ toString (pyHash query % 10000)
    { results := [{
        id := mockupId,
        title := "News Article on " ++ pyTitle query,
        text := "Full text about the topic: " ++ query,
        url := "https://mockup-url.org/" ++ mockupId }] }

/-- Embedding of the `fetch` tool (`src/mcp_server.py:74-109`).
An empty id raises `ValueError` (`if not id`; only the empty string is falsy —
no stripping happens); any other id yields the fabricated document. -/
def fetch (id : String) : Except PyError FetchResponse :=
  if id = "" then
    Except.error (PyError.valueError "Document ID is required")
  else
    Except.ok {
      id := id,
      title := "Retrieved Document",
      text := "Full document content for ID: " ++ id,
      url := "https://platform.openai.com/storage/files/" ++ id,
      metadata := [("source", "Mockup Press"), ("retrieved_by", "Somebody")] }

/-- The string `"mock@@@" ++ t` is never empty. -/
lemma mock_id_ne_empty (t : String) : "mock@@@" ++ t ≠ "" := by
  intro heq
  have h1 := congrArg String.length heq
  rw [String.length_append] at h1
  have h2 : "mock@@@".length = 7 := rfl
  have h3 : String.length "" = 0 := rfl
  omega

/-- On a non-empty id, `fetch` succeeds with the fabricated document. -/
lemma fetch_eq_ok (id : String) (h : id ≠ "") :
    fetch id = Except.ok {
      id := id,
      title := "Retrieved Document",
      text := "Full document content for ID: " ++ id,
      url := "https://platform.openai.com/storage/files/" ++ id,
      metadata := [("source", "Mockup Press"), ("retrieved_by", "Somebody")] } := by
  simp [fetch, h]

/-- Stripping a string all of whose characters are whitespace yields `""`. -/
lemma pyStrip_eq_empty_of_all_space (q : String) (h : ∀ c ∈ q.data, pyIsSpace c) :
    pyStrip q = "" := by
  unfold pyStrip
  have h1 : q.data.dropWhile pyIsSpace = [] := List.dropWhile_eq_nil_iff.mpr h
  rw [h1]
  rfl

/-- Claim C1: every identifier appearing in the results of any `search` call is
fetchable — `fetch` of it succeeds and the returned document's `id` field equals
it (the stub's `fetch` fabricates a document for every non-empty id, and every
id `search` emits starts with the non-empty literal `mock@@@`). -/
theorem search_ids_fetchable (pyHash : String → Int) (query : String)
    (r : SearchResult) (hr : r ∈ (search pyHash query).results) :
    ∃ d, fetch r.id = Except.ok d ∧ d.id = r.id := by
  unfold search at hr
  split at hr
  · simp at hr
  · simp only [List.mem_singleton] at hr
    subst hr
    exact ⟨_, fetch_eq_ok _ (mock_id_ne_empty _), rfl⟩

/-- Witness for C1 at the concrete hash `fun _ => 0` and query `"cats"`:
`search` then returns the single id `mock@@@0`, which is fetchable. -/
theorem search_ids_fetchable_witness :
    ∃ d, fetch (SearchResult.id ⟨"mock@@@0", "News Article on Cats",
        "Full text about the topic: cats", "https://mockup-url.org/mock@@@0"⟩) =
      Except.ok d ∧
      d.id = SearchResult.id ⟨"mock@@@0", "News Article on Cats",
        "Full text about the topic: cats", "https://mockup-url.org/mock@@@0"⟩ :=
  search_ids_fetchable (fun _ => 0) "cats"
    ⟨"mock@@@0", "News Article on Cats",
      "Full text about the topic: cats", "https://mockup-url.org/mock@@@0"⟩
    (by decide)

/-- Claim C2 (divergence exhibit): contrary to the claim that fetching an
identifier absent from the document store fails with `NotFound`, the code keeps
no store at all and fabricates a document for any non-empty id — here the
unknown id `doc1` (with an empty store) succeeds instead of failing, against
the function's own docstring "Raises ValueError: If the specified ID is not
found". -/
theorem fetch_unknown_id_fabricates :
    fetch "doc1" = Except.ok {
      id := "doc1",
      title := "Retrieved Document",
      text := "Full document content for ID: doc1",
      url := "https://platform.openai.com/storage/files/doc1",
      metadata := [("source", "Mockup Press"), ("retrieved_by", "Somebody")] } := by
  simp [fetch]

/-- Claim C3: a query that is empty or consists only of whitespace makes
`search` return the empty-results response, with no error signalled
(`search` returns normally for every input). -/
theorem search_blank_query_empty (pyHash : String → Int) (query : String)
    (hq : query = "" ∨ ∀ c ∈ query.data, pyIsSpace c) :
    search pyHash query = { results := [] } := by
  have hcond : query = "" ∨ pyStrip query = "" := by
    rcases hq with h | h
    · exact Or.inl h
    · exact Or.inr (pyStrip_eq_empty_of_all_space query h)
  unfold search
  rw [if_pos hcond]

/-- Witness for C3 at the all-whitespace query `"   "`. -/
theorem search_blank_query_empty_witness :
    search (fun _ => 0) "   " = { results := [] } :=
  search_blank_query_empty (fun _ => 0) "   " (Or.inr (by decide))

/-- Claim C4: calling `fetch` with the empty string always fails with the
`ValueError` the spec maps to `InvalidArgument`; the error is raised before
any response document is assembled (the result is `Except.error`, so no
`FetchResponse` exists). -/
theorem fetch_empty_id_value_error :
    fetch "" = Except.error (PyError.valueError "Document ID is required") := rfl

/-- Claim C5: for every query that is non-empty after trimming, the results
list of `search` is ordered by non-increasing relevance with ties broken by
lexical id order — it is pairwise-ordered under every relation, because the
stub returns exactly one result, and a list of length one is trivially
sorted. -/
theorem search_results_sorted (pyHash : String → Int) (query : String)
    (_hq : pyStrip query ≠ "")
    (rel : SearchResult → SearchResult → Prop) :
    ((search pyHash query).results).Pairwise rel := by
  unfold search
  split
  · exact List.Pairwise.nil
  · exact List.Pairwise.cons (by simp) List.Pairwise.nil

/-- Witness for C5 at the query `"cats"` and the non-increasing-by-id order. -/
theorem search_results_sorted_witness :
    ((search (fun _ => 7) "cats").results).Pairwise (fun a b => b.id ≤ a.id) :=
  search_results_sorted (fun _ => 7) "cats" (by decide) (fun a b => b.id ≤ a.id)

/-- Claim C6: `search` is deterministic — within one process (one fixed string
hash), two calls with equal query strings return equal responses, because the
response is a pure function of the query. -/
theorem search_deterministic (pyHash : String → Int) (q1 q2 : String)
    (hq : q1 = q2) : search pyHash q1 = search pyHash q2 := by
  rw [hq]

/-- Witness for C6: two calls with the query `"cats"` agree. -/
theorem search_deterministic_witness :
    search (fun _ => 42) "cats" = search (fun _ => 42) "cats" :=
  search_deterministic (fun _ => 42) "cats" "cats" rfl

/-- Claim C7: `fetch` is idempotent — repeated calls with the same valid
(non-empty) id return identical content, and such calls do succeed with a
document. -/
theorem fetch_idempotent (id1 id2 : String) (heq : id1 = id2) (hne : id1 ≠ "") :
    fetch id1 = fetch id2 ∧ ∃ d, fetch id1 = Except.ok d := by
  subst heq
  exact ⟨rfl, ⟨_, fetch_eq_ok id1 hne⟩⟩

/-- Witness for C7 at the id `"doc42"`. -/
theorem fetch_idempotent_witness :
    fetch "doc42" = fetch "doc42" ∧ ∃ d, fetch "doc42" = Except.ok d :=
  fetch_idempotent "doc42" "doc42" rfl (by decide)

/-- Claim C8: on every non-empty id the response of `fetch` matches the fixed
schema — `id` equals the input, a `title`, the full `text` content (the whole
string, untruncated), a `url`, and the metadata mapping. -/
theorem fetch_schema (id : String) (hne : id ≠ "") :
    fetch id = Except.ok {
      id := id,
      title := "Retrieved Document",
      text := "Full document content for ID: " ++ id,
      url := "https://platform.openai.com/storage/files/" ++ id,
      metadata := [("source", "Mockup Press"), ("retrieved_by", "Somebody")] } :=
  fetch_eq_ok id hne

/-- Witness for C8 at the id `"file-abc123"`. -/
theorem fetch_schema_witness :
    fetch "file-abc123" = Except.ok {
      id := "file-abc123",
      title := "Retrieved Document",
      text := "Full document content for ID: " ++ "file-abc123",
      url := "https://platform.openai.com/storage/files/" ++ "file-abc123",
      metadata := [("source", "Mockup Press"), ("retrieved_by", "Somebody")] } :=
  fetch_schema "file-abc123" (by decide)

/-- Claim C9: for every query non-empty after trimming, `search` returns
exactly one result, whose id is `mock@@@` followed by an integer `n` with
`0 ≤ n ≤ 9999` (here `n = hash(query) % 10000`, and Python's `%` with a
positive modulus lands in `[0, 9999]`), and whose url is
`https://mockup-url.org/` followed by that id. -/
theorem search_single_mock_result (pyHash : String → Int) (query : String)
    (hq : pyStrip query ≠ "") :
    ∃ n : Int, 0 ≤ n ∧ n ≤ 9999 ∧
      ∃ r : SearchResult, (search pyHash query).results = [r] ∧
        r.id = "mock@@@" ++ toString n ∧
        r.url = "https://mockup-url.org/" ++ r.id := by
  have hne : ¬(query = "" ∨ pyStrip query = "") := by
    rintro (h | h)
    · exact hq (by rw [h]; rfl)
    · exact hq h
  refine ⟨pyHash query % 10000, Int.emod_nonneg _ (by decide), ?_, ?_⟩
  · have hlt := Int.emod_lt_of_pos (pyHash query) (show (0:Int) < 10000 by decide)
    omega
  · exact ⟨{ id := "mock@@@" ++ toString (pyHash query % 10000),
             title := "News Article on " ++ pyTitle query,
             text := "Full text about the topic: " ++ query,
             url := "https://mockup-url.org/" ++
               ("mock@@@" ++ toString (pyHash query % 10000)) },
           by unfold search; rw [if_neg hne], rfl, rfl⟩

/-- Witness for C9 at the hash `fun _ => 1234` and query `"cats"`. -/
theorem search_single_mock_result_witness :
    ∃ n : Int, 0 ≤ n ∧ n ≤ 9999 ∧
      ∃ r : SearchResult, (search (fun _ => 1234) "cats").results = [r] ∧
        r.id = "mock@@@" ++ toString n ∧
        r.url = "https://mockup-url.org/" ++ r.id :=
  search_single_mock_result (fun _ => 1234) "cats" (by decide)

/-- Claim C10: `fetch` rejects only the exactly-empty string — it performs no
trimming, so an id consisting solely of whitespace does not raise and yields
the fabricated document carrying that very id. -/
theorem fetch_whitespace_id_ok (id : String) (hne : id ≠ "")
    (_hsp : ∀ c ∈ id.data, pyIsSpace c) :
    ∃ d, fetch id = Except.ok d ∧ d.id = id :=
  ⟨_, fetch_eq_ok id hne, rfl⟩

/-- Witness for C10 at the single-space id `" "`. -/
theorem fetch_whitespace_id_ok_witness :
    ∃ d, fetch " " = Except.ok d ∧ d.id = " " :=
  fetch_whitespace_id_ok " " (by decide) (by decide)

end MCPServer
